import Mathlib

/-!
Shallow embedding of a slice of a web-application platform, checked against
its natural-language specification.

The slice contains:
* `x-pack/plugins/alerting/server/routes/legacy/delete.ts`: a legacy REST
  route that validates a path parameter and forwards a deletion to an
  internal rules client;
* a React form component for authoring detection rules, whose rule-type
  switching resets the custom query field to type-specific defaults and
  preserves ES|QL queries across rule-type changes;
* functional-test-level behaviors of the dashboard application (missing
  data-view error, ES|QL interval control creation), modelled from the spec
  because the application code is outside this slice.
-/

namespace Spec2Proof

/-! ## Legacy alerting delete route

Embedding of `deleteAlertRoute` from
`x-pack/plugins/alerting/server/routes/legacy/delete.ts`.
-/

/-- A value appearing in a request's (path-)parameter record, as seen by the
`@kbn/config-schema` validator: a string, or something that is not a string. -/
inductive ParamValue where
  | str (s : String)
  | num (n : Int)
  | boolV (b : Bool)
deriving DecidableEq, Repr

/-- Look up a key in a raw parameter record. -/
def lookupParam (ps : List (String × ParamValue)) (k : String) : Option ParamValue :=
  (ps.find? (fun p => p.1 = k)).map Prod.snd

/-- Embedding of `paramSchema = schema.object({ id: schema.string() })`:
validation succeeds exactly when the record carries the key `id` bound to a
string (unknown keys are rejected, per the schema library's default), and
yields the validated `id`. -/
def validateParams (ps : List (String × ParamValue)) : Option String :=
  match lookupParam ps "id" with
  | some (ParamValue.str s) => if ps.all (fun p => p.1 = "id") then some s else none
  | _ => none

/-- The internal rules client reached through the alerting route-handler
context; `deleteResult id` is the outcome of `rulesClient.delete({ id })`
(an error models a rejected promise). -/
structure RulesClient where
  deleteResult : String → Except String Unit

/-- The per-request environment of the handler: whether the license check
passes, the optional alerting context (carrying the rules client), and
whether a usage counter was supplied to the route. -/
structure HandlerEnv where
  licenseOk : Bool
  alerting : Option RulesClient
  hasUsageCounter : Bool

/-- The HTTP-level outcome of running the handler body: `res.noContent()`
(204, empty body), `res.badRequest({ body })` (400, plain-text body), or an
exception propagated to the `handleLegacyErrors` wrapper. -/
inductive Outcome where
  | noContent
  | badRequest (body : String)
  | errorPropagated (err : String)
deriving DecidableEq, Repr

/-- Whether an outcome is an explicit HTTP 400 response. -/
def Outcome.isBadRequest : Outcome → Bool
  | Outcome.badRequest _ => true
  | _ => false

/-- Observable trace of one handler run: the arguments of the calls to
`trackLegacyRouteUsage`, the resulting usage-counter increments, the ids
passed to `rulesClient.delete`, and the HTTP outcome. -/
structure HandlerTrace where
  trackCalls : List String
  usageCounterIncrements : Nat
  deleteCalls : List String
  outcome : Outcome
deriving DecidableEq, Repr

/-- Modelled from the spec: `verifyApiAccess` (imported from
`lib/license_api_access`, outside this slice) performs license verification
and throws when it fails; per the spec, that failure is propagated to the
legacy-error-wrapping facility. -/
def verifyApiAccess (licenseOk : Bool) : Except String Unit :=
  if licenseOk then Except.ok () else Except.error "license check failed"

/-- Modelled from the spec: `trackLegacyRouteUsage` (imported from
`lib/track_legacy_route_usage`, outside this slice) records one usage of the
named legacy route, incrementing the usage counter when one is present.
Returns the recorded call and the counter increment. -/
def trackLegacyRouteUsage (method : String) (hasUsageCounter : Bool) :
    List String × Nat :=
  ([method], if hasUsageCounter then 1 else 0)

/-- Embedding of the body of the `deleteAlertRoute` handler:
`verifyApiAccess(licenseState)`; if `context.alerting` is absent, answer
400 with a fixed plain-text body; otherwise track legacy usage, call
`rulesClient.delete({ id })` with the validated path parameter, and answer
204 on success; thrown errors go to `handleLegacyErrors`. -/
def deleteAlertHandler (env : HandlerEnv) (id : String) : HandlerTrace :=
  match verifyApiAccess env.licenseOk with
  | Except.error e => ⟨[], 0, [], Outcome.errorPropagated e⟩
  | Except.ok _ =>
    match env.alerting with
    | none => ⟨[], 0, [], Outcome.badRequest "RouteHandlerContext is not registered for alerting"⟩
    | some rulesClient =>
      let tracked := trackLegacyRouteUsage "delete" env.hasUsageCounter
      match rulesClient.deleteResult id with
      | Except.ok _ => ⟨tracked.1, tracked.2, [id], Outcome.noContent⟩
      | Except.error e => ⟨tracked.1, tracked.2, [id], Outcome.errorPropagated e⟩

/-- HTTP methods of the router. -/
inductive HttpMethod where
  | get | post | put | delete | patch
deriving DecidableEq, Repr

/-- What `deleteAlertRoute` registers on the router: the method (it calls
`router.delete`), the path, and the params validator. -/
structure RouteRegistration where
  method : HttpMethod
  path : String
  validateP : List (String × ParamValue) → Option String

/-- Embedding of the registration performed by `deleteAlertRoute`:
method DELETE at `` `${LEGACY_BASE_ALERT_API_PATH}/alert/{id}` `` with
`paramSchema` validating the params. `LEGACY_BASE_ALERT_API_PATH` is
imported from `common` (outside this slice), so it stays a parameter. -/
def deleteAlertRoute (legacyBase : String) : RouteRegistration :=
  { method := HttpMethod.delete
    path := legacyBase ++ "/alert/{id}"
    validateP := validateParams }

/-- Result of dispatching a raw request through the route: rejected by
request validation before the handler runs, or handled with a trace. -/
inductive DispatchResult where
  | validationRejected
  | handled (t : HandlerTrace)
deriving DecidableEq, Repr

/-- The router's dispatch for this route: validate the raw params against
`paramSchema`; on failure reject before the handler runs, on success run
the handler with the validated `id`. -/
def dispatch (env : HandlerEnv) (raw : List (String × ParamValue)) : DispatchResult :=
  match validateParams raw with
  | none => DispatchResult.validationRejected
  | some id => DispatchResult.handled (deleteAlertHandler env id)

/-- A rules client whose delete always succeeds. -/
def okClient : RulesClient := ⟨fun _ => Except.ok ()⟩

/-- A rules client whose delete always fails. -/
def failClient : RulesClient := ⟨fun _ => Except.error "delete failed"⟩

/-! ## Detection-rule form: rule-type switching

Embedding of the two `useEffect` blocks of `StepDefineRuleComponent` that
reset the custom query field when the rule type changes. The effects fire
on the render where `ruleType` differs from `usePrevious(ruleType)`, in
their order of declaration: first the threat-match default reset, then the
ES|QL save/restore reset.
-/

/-- The rule-type discriminant (`Type` from
`@kbn/securitysolution-io-ts-alerting-types`), per the glossary: query,
threshold, EQL, ES|QL, ML, threat-match, new-terms (and saved query). -/
inductive RuleType where
  | query | savedQuery | eql | esql | machineLearning | threatMatch | threshold | newTerms
deriving DecidableEq, Repr

/-- `isThreatMatchRule`: the rule type is `threat_match`. -/
def isThreatMatchRule : RuleType → Bool
  | RuleType.threatMatch => true
  | _ => false

/-- `isEsqlRule`: the rule type is `esql`. -/
def isEsqlRule : RuleType → Bool
  | RuleType.esql => true
  | _ => false

/-- `isThreatMatchRule` applied to the possibly-undefined
`previousRuleType` (`usePrevious` yields `undefined` on the first render). -/
def isThreatMatchRulePrev : Option RuleType → Bool
  | some t => isThreatMatchRule t
  | none => false

/-- `isEsqlRule` applied to the possibly-undefined `previousRuleType`. -/
def isEsqlRulePrev : Option RuleType → Bool
  | some t => isEsqlRule t
  | none => false

/-- The custom query field's value (`queryBar`): the query text and its
language tag, the parts the component compares and branches on. -/
structure QueryBar where
  query : String
  language : String
deriving DecidableEq, Repr

/-- The three type-specific defaults of the custom query field, named as in
the source object `defaultCustomQuery`. -/
structure DefaultCustomQuery where
  forNormalRules : QueryBar
  forThreatMatchRules : QueryBar
  forEsqlRules : QueryBar

/-- Modelled from the spec: `defaultCustomQuery` (imported from
`detections/pages/detection_engine/rules/utils`, outside this slice). Per
the spec and the component's comments, the normal-rule default query is
`''`, the threat-match default is `'*:*'` (both in the default query
language), and the ES|QL default is the empty ES|QL query. -/
def defaultCustomQuery : DefaultCustomQuery :=
  { forNormalRules := ⟨"", "kuery"⟩
    forThreatMatchRules := ⟨"*:*", "kuery"⟩
    forEsqlRules := ⟨"", "esql"⟩ }

/-- The default custom query of a rule type, for stating the claims: the
ES|QL default for ES|QL rules, the `'*:*'` default for threat-match rules,
the `''` default otherwise. -/
def typeDefaultQuery (t : RuleType) : QueryBar :=
  if isEsqlRule t then defaultCustomQuery.forEsqlRules
  else if isThreatMatchRule t then defaultCustomQuery.forThreatMatchRules
  else defaultCustomQuery.forNormalRules

/-- The form state these effects read and write: the custom query field's
current value and the `esqlQueryRef` ref holding a saved ES|QL query. -/
structure FormState where
  queryBar : QueryBar
  esqlQueryRef : Option QueryBar
deriving DecidableEq, Repr

/-- Embedding of the first `useEffect`: switching into `threat_match` with
the query still equal to the normal-rule default resets it to the
threat-match default; switching out of `threat_match` with the query still
equal to the threat-match default resets it to the normal-rule default;
otherwise the field is untouched. -/
def threatMatchQueryResetEffect (prev : Option RuleType) (cur : RuleType)
    (s : FormState) : FormState :=
  if isThreatMatchRule cur && !isThreatMatchRulePrev prev then
    if s.queryBar = defaultCustomQuery.forNormalRules then
      { s with queryBar := defaultCustomQuery.forThreatMatchRules }
    else s
  else if !isThreatMatchRule cur && isThreatMatchRulePrev prev then
    if s.queryBar = defaultCustomQuery.forThreatMatchRules then
      { s with queryBar := defaultCustomQuery.forNormalRules }
    else s
  else s

/-- Embedding of the second `useEffect`: switching to ES|QL from a defined
non-ES|QL type resets the query to the saved ES|QL query (`esqlQueryRef`)
or the ES|QL default; switching away from ES|QL saves the current value
into `esqlQueryRef` when its language is `esql` and resets the query to the
threat-match default or the normal-rule default according to the new type. -/
def esqlQueryResetEffect (prev : Option RuleType) (cur : RuleType)
    (s : FormState) : FormState :=
  if isEsqlRule cur then
    match prev with
    | some p =>
      if !isEsqlRule p then
        { s with queryBar := s.esqlQueryRef.getD defaultCustomQuery.forEsqlRules }
      else s
    | none => s
  else if isEsqlRulePrev prev then
    let newRef := if s.queryBar.language = "esql" then some s.queryBar else s.esqlQueryRef
    let dv := if isThreatMatchRule cur then defaultCustomQuery.forThreatMatchRules
              else defaultCustomQuery.forNormalRules
    { queryBar := dv, esqlQueryRef := newRef }
  else s

/-- One rule-type change as observed by the component: both effects run, in
their order of declaration in the source. -/
def ruleTypeTransition (prev : Option RuleType) (cur : RuleType)
    (s : FormState) : FormState :=
  esqlQueryResetEffect prev cur (threatMatchQueryResetEffect prev cur s)

/-! ## Dashboard behaviors modelled from the spec -/

/-- Modelled from the spec: loading a saved dashboard whose referenced data
view is missing surfaces an embeddable error naming the missing data view
(the dashboard application itself is outside this slice; only its
functional test is present). Returns `none` when the referenced data view
exists, otherwise the embeddable error's visible text. -/
def loadDashboard (availableDataViewIds : List String)
    (referencedDataViewId : String) : Option String :=
  if availableDataViewIds.contains referencedDataViewId then none
  else some ("Could not locate that data view" ++ " (id: " ++ referencedDataViewId
      ++ "), click here to re-create it")

/-- Modelled from the spec: creating an interval-type ES|QL control inserts
the `?interval` placeholder into the panel's ES|QL editor query at the
cursor, represented here by the text before and after the cursor (the
control-creation code is outside this slice; only its functional test is
present). -/
def applyIntervalControl (beforeCursor afterCursor : String) : String :=
  beforeCursor ++ "?interval" ++ afterCursor

/-! ### Theorems about the legacy delete route -/

/-- C1 counterexample: with the alerting context available but license
verification failing, the handler neither calls `rulesClient.delete` nor
answers 204 — so availability of the context alone does not guarantee the
forwarding claimed. -/
theorem c1_counterexample :
    (HandlerEnv.mk false (some okClient) true).alerting.isSome = true
    ∧ okClient.deleteResult "alert-1" = Except.ok ()
    ∧ (deleteAlertHandler (HandlerEnv.mk false (some okClient) true) "alert-1").deleteCalls = []
    ∧ (deleteAlertHandler (HandlerEnv.mk false (some okClient) true) "alert-1").outcome
        ≠ Outcome.noContent := by
  refine ⟨rfl, rfl, rfl, ?_⟩
  decide

/-- C1 (amended): when license verification succeeds and the alerting
context is available, the handler calls `rulesClient.delete` with exactly
the id from the request's path parameters, and when that call succeeds it
answers HTTP 204 with an empty body. -/
theorem c1_delete_forwarded (env : HandlerEnv) (client : RulesClient) (id : String)
    (hl : env.licenseOk = true) (ha : env.alerting = some client) :
    (deleteAlertHandler env id).deleteCalls = [id]
    ∧ (client.deleteResult id = Except.ok () →
        (deleteAlertHandler env id).outcome = Outcome.noContent) := by
  unfold deleteAlertHandler verifyApiAccess
  rw [hl, ha]
  simp only [if_true]
  constructor
  · cases h : client.deleteResult id with
    | ok u => simp [h]
    | error e => simp [h]
  · intro hok
    simp [hok]

/-- Witness for C1: a concrete run with a valid license, a present context
and a succeeding client deletes exactly the requested id and answers 204. -/
theorem c1_delete_forwarded_witness :
    (deleteAlertHandler (HandlerEnv.mk true (some okClient) true) "alert-1").deleteCalls
        = ["alert-1"]
    ∧ (deleteAlertHandler (HandlerEnv.mk true (some okClient) true) "alert-1").outcome
        = Outcome.noContent :=
  ⟨(c1_delete_forwarded (HandlerEnv.mk true (some okClient) true) okClient "alert-1" rfl rfl).1,
   (c1_delete_forwarded (HandlerEnv.mk true (some okClient) true) okClient "alert-1" rfl rfl).2 rfl⟩

/-- C2 counterexample: with the alerting context absent but license
verification failing, the handler does not answer HTTP 400 — the license
error is propagated first — so absence of the context alone does not
guarantee the 400 response claimed. -/
theorem c2_counterexample :
    (HandlerEnv.mk false none true).alerting = none
    ∧ (deleteAlertHandler (HandlerEnv.mk false none true) "alert-1").outcome
        = Outcome.errorPropagated "license check failed"
    ∧ (deleteAlertHandler (HandlerEnv.mk false none true) "alert-1").outcome.isBadRequest
        = false := by
  refine ⟨rfl, rfl, ?_⟩
  decide

/-- C2 (amended): whenever the alerting context is absent the rules
client's delete operation is not invoked; and when license verification
additionally succeeds, the handler answers HTTP 400 with a plain-text
body. -/
theorem c2_missing_context (env : HandlerEnv) (id : String)
    (ha : env.alerting = none) :
    (deleteAlertHandler env id).deleteCalls = []
    ∧ (env.licenseOk = true →
        (deleteAlertHandler env id).outcome
          = Outcome.badRequest "RouteHandlerContext is not registered for alerting") := by
  unfold deleteAlertHandler verifyApiAccess
  rw [ha]
  cases hl : env.licenseOk with
  | false => simp
  | true => simp

/-- Witness for C2: a concrete run with a valid license and no alerting
context makes no delete call and answers the fixed 400 response. -/
theorem c2_missing_context_witness :
    (deleteAlertHandler (HandlerEnv.mk true none true) "alert-1").deleteCalls = []
    ∧ (deleteAlertHandler (HandlerEnv.mk true none true) "alert-1").outcome
        = Outcome.badRequest "RouteHandlerContext is not registered for alerting" :=
  ⟨(c2_missing_context (HandlerEnv.mk true none true) "alert-1" rfl).1,
   (c2_missing_context (HandlerEnv.mk true none true) "alert-1" rfl).2 rfl⟩

/-- C3: the route is registered with method DELETE at
`{legacyBase}/alert/{id}`; params validation succeeds exactly by finding
`id` bound to a string and returns it; a raw record rejected by the schema
never reaches the handler, while a conforming one is handled with the
validated id. -/
theorem c3_route_registration (legacyBase : String) :
    (deleteAlertRoute legacyBase).method = HttpMethod.delete
    ∧ (deleteAlertRoute legacyBase).path = legacyBase ++ "/alert/{id}"
    ∧ (deleteAlertRoute legacyBase).validateP = validateParams
    ∧ (∀ raw id, validateParams raw = some id →
        lookupParam raw "id" = some (ParamValue.str id))
    ∧ (∀ env raw, validateParams raw = none →
        dispatch env raw = DispatchResult.validationRejected)
    ∧ (∀ env id, dispatch env [("id", ParamValue.str id)]
        = DispatchResult.handled (deleteAlertHandler env id)) := by
  refine ⟨rfl, rfl, rfl, ?_, ?_, ?_⟩
  · intro raw id hv
    unfold validateParams at hv
    cases h : lookupParam raw "id" with
    | none => rw [h] at hv; exact absurd hv (by simp)
    | some v =>
      rw [h] at hv
      cases v with
      | str s =>
        by_cases hall : raw.all (fun p => p.1 = "id")
        · simp [hall] at hv
          subst hv
          rfl
        · simp [hall] at hv
      | num n => exact absurd hv (by simp)
      | boolV b => exact absurd hv (by simp)
  · intro env raw hv
    unfold dispatch
    rw [hv]
  · intro env id
    unfold dispatch validateParams lookupParam
    simp

/-- Witness for C3: at `legacyBase := "/api/alerts"`, the registration has
method DELETE and the expected path, a record without `id` is rejected
before the handler runs, and a conforming record is handled. -/
theorem c3_route_registration_witness :
    (deleteAlertRoute "/api/alerts").method = HttpMethod.delete
    ∧ (deleteAlertRoute "/api/alerts").path = "/api/alerts/alert/{id}"
    ∧ lookupParam [("id", ParamValue.str "abc")] "id" = some (ParamValue.str "abc")
    ∧ dispatch (HandlerEnv.mk true none false) [("other", ParamValue.num 3)]
        = DispatchResult.validationRejected
    ∧ dispatch (HandlerEnv.mk true none false) [("id", ParamValue.str "abc")]
        = DispatchResult.handled
            (deleteAlertHandler (HandlerEnv.mk true none false) "abc") :=
  ⟨(c3_route_registration "/api/alerts").1,
   (c3_route_registration "/api/alerts").2.1,
   (c3_route_registration "/api/alerts").2.2.2.1 [("id", ParamValue.str "abc")] "abc" (by decide),
   (c3_route_registration "/api/alerts").2.2.2.2.1 (HandlerEnv.mk true none false)
     [("other", ParamValue.num 3)] (by decide),
   (c3_route_registration "/api/alerts").2.2.2.2.2 (HandlerEnv.mk true none false) "abc"⟩

/-- C4: the handler's only explicit HTTP error is the fixed 400 for a
missing alerting context (it occurs only with a valid license and an
absent context); a failing license check and a failing delete call are
instead propagated to `handleLegacyErrors`. -/
theorem c4_single_explicit_error (env : HandlerEnv) (client : RulesClient)
    (id : String) (e : String) :
    (∀ b, (deleteAlertHandler env id).outcome = Outcome.badRequest b →
        b = "RouteHandlerContext is not registered for alerting"
        ∧ env.licenseOk = true ∧ env.alerting = none)
    ∧ (env.licenseOk = false →
        (deleteAlertHandler env id).outcome
          = Outcome.errorPropagated "license check failed")
    ∧ (env.licenseOk = true → env.alerting = some client →
        client.deleteResult id = Except.error e →
        (deleteAlertHandler env id).outcome = Outcome.errorPropagated e) := by
  obtain ⟨lic, al, huc⟩ := env
  refine ⟨?_, ?_, ?_⟩
  · intro b hb
    cases lic with
    | false => exact absurd hb (by simp [deleteAlertHandler, verifyApiAccess])
    | true =>
      cases al with
      | none =>
        simp only [deleteAlertHandler, verifyApiAccess, if_true] at hb
        exact ⟨by cases hb; rfl, rfl, rfl⟩
      | some c =>
        cases hd : c.deleteResult id with
        | ok u => exact absurd hb (by simp [deleteAlertHandler, verifyApiAccess, hd])
        | error e2 => exact absurd hb (by simp [deleteAlertHandler, verifyApiAccess, hd])
  · intro hl
    replace hl : lic = false := hl
    subst hl
    simp [deleteAlertHandler, verifyApiAccess]
  · intro hl ha hd
    replace hl : lic = true := hl
    replace ha : al = some client := ha
    subst hl
    subst ha
    simp [deleteAlertHandler, verifyApiAccess, hd]

/-- Witness for C4: concrete runs showing the 400 body analysis at a
missing-context run, the propagated license error, and a propagated
delete failure. -/
theorem c4_single_explicit_error_witness :
    ("RouteHandlerContext is not registered for alerting"
        = "RouteHandlerContext is not registered for alerting"
      ∧ (HandlerEnv.mk true none false).licenseOk = true
      ∧ (HandlerEnv.mk true none false).alerting = none)
    ∧ (deleteAlertHandler (HandlerEnv.mk false (some failClient) true) "a").outcome
        = Outcome.errorPropagated "license check failed"
    ∧ (deleteAlertHandler (HandlerEnv.mk true (some failClient) true) "a").outcome
        = Outcome.errorPropagated "delete failed" :=
  ⟨(c4_single_explicit_error (HandlerEnv.mk true none false) failClient "a" "delete failed").1
      "RouteHandlerContext is not registered for alerting" rfl,
   (c4_single_explicit_error (HandlerEnv.mk false (some failClient) true) failClient "a"
      "delete failed").2.1 rfl,
   (c4_single_explicit_error (HandlerEnv.mk true (some failClient) true) failClient "a"
      "delete failed").2.2 rfl rfl rfl⟩

/-- C10: `trackLegacyRouteUsage` runs only when license verification
succeeded and the alerting context is present; on the missing-context 400
path and on a license failure nothing is tracked and the usage counter is
unchanged; when both checks pass the single tracked method is `delete`. -/
theorem c10_usage_tracking (env : HandlerEnv) (id : String) :
    ((deleteAlertHandler env id).trackCalls ≠ [] →
        env.licenseOk = true ∧ env.alerting.isSome = true)
    ∧ (env.licenseOk = false →
        (deleteAlertHandler env id).trackCalls = []
        ∧ (deleteAlertHandler env id).usageCounterIncrements = 0)
    ∧ (env.alerting = none →
        (deleteAlertHandler env id).trackCalls = []
        ∧ (deleteAlertHandler env id).usageCounterIncrements = 0)
    ∧ (env.licenseOk = true → ∀ client, env.alerting = some client →
        (deleteAlertHandler env id).trackCalls = ["delete"]
        ∧ (deleteAlertHandler env id).usageCounterIncrements
            = (if env.hasUsageCounter then 1 else 0)) := by
  obtain ⟨lic, al, huc⟩ := env
  cases lic with
  | false =>
    refine ⟨?_, fun _ => ?_, fun _ => ?_, fun hcontra => absurd hcontra (by simp)⟩
    · intro h
      exact absurd (by simp [deleteAlertHandler, verifyApiAccess]) h
    · simp [deleteAlertHandler, verifyApiAccess]
    · simp [deleteAlertHandler, verifyApiAccess]
  | true =>
    cases al with
    | none =>
      refine ⟨?_, fun hf => absurd hf (by simp), fun _ => ?_, ?_⟩
      · intro h
        exact absurd (by simp [deleteAlertHandler, verifyApiAccess]) h
      · simp [deleteAlertHandler, verifyApiAccess]
      · intro _ client hc
        exact absurd hc (by simp)
    | some client =>
      refine ⟨fun _ => ⟨rfl, rfl⟩, fun hf => absurd hf (by simp),
        fun hn => absurd hn (by simp), ?_⟩
      intro _ client2 hc
      replace hc : (some client : Option RulesClient) = some client2 := hc
      cases hc
      cases hd : client.deleteResult id with
      | ok u => simp [deleteAlertHandler, verifyApiAccess, trackLegacyRouteUsage, hd]
      | error e => simp [deleteAlertHandler, verifyApiAccess, trackLegacyRouteUsage, hd]

/-- Witness for C10: concrete runs — tracking happened with both checks
passed; nothing tracked on a license failure; nothing tracked on the
missing-context 400 path; with both checks passed the tracked method is
`delete` and the counter increments once. -/
theorem c10_usage_tracking_witness :
    ((HandlerEnv.mk true (some okClient) true).licenseOk = true
      ∧ (HandlerEnv.mk true (some okClient) true).alerting.isSome = true)
    ∧ ((deleteAlertHandler (HandlerEnv.mk false (some okClient) true) "a").trackCalls = []
      ∧ (deleteAlertHandler (HandlerEnv.mk false (some okClient) true) "a").usageCounterIncrements = 0)
    ∧ ((deleteAlertHandler (HandlerEnv.mk true none true) "a").trackCalls = []
      ∧ (deleteAlertHandler (HandlerEnv.mk true none true) "a").usageCounterIncrements = 0)
    ∧ ((deleteAlertHandler (HandlerEnv.mk true (some okClient) true) "a").trackCalls = ["delete"]
      ∧ (deleteAlertHandler (HandlerEnv.mk true (some okClient) true) "a").usageCounterIncrements
          = (if (HandlerEnv.mk true (some okClient) true).hasUsageCounter then 1 else 0)) :=
  ⟨(c10_usage_tracking (HandlerEnv.mk true (some okClient) true) "a").1 (by decide),
   (c10_usage_tracking (HandlerEnv.mk false (some okClient) true) "a").2.1 rfl,
   (c10_usage_tracking (HandlerEnv.mk true none true) "a").2.2.1 rfl,
   (c10_usage_tracking (HandlerEnv.mk true (some okClient) true) "a").2.2.2 rfl okClient rfl⟩

/-! ### Theorems about the rule-type switching effects -/

/-- The threat-match reset effect never writes `esqlQueryRef`. -/
theorem threatMatchEffect_preserves_ref (prev : Option RuleType) (cur : RuleType)
    (s : FormState) :
    (threatMatchQueryResetEffect prev cur s).esqlQueryRef = s.esqlQueryRef := by
  unfold threatMatchQueryResetEffect
  split
  · split <;> rfl
  · split
    · split <;> rfl
    · rfl

/-- C5 counterexample: switching from `query` to `threat_match` with a
user-modified custom query does not reset the field to the threat-match
default — the query is left as the user wrote it. -/
theorem c5_counterexample :
    (ruleTypeTransition (some RuleType.query) RuleType.threatMatch
        (FormState.mk (QueryBar.mk "user query" "kuery") none)).queryBar
      = QueryBar.mk "user query" "kuery"
    ∧ QueryBar.mk "user query" "kuery" ≠ defaultCustomQuery.forThreatMatchRules := by
  refine ⟨rfl, ?_⟩
  decide

/-- C5 (amended): on a rule-type change the custom query is reset to the
new type's default only when it still equals the previous type's default:
into `threat_match` (from a non-threat-match type, query still `''`) it
becomes `'*:*'`; from `threat_match` to a non-ES|QL type (query still
`'*:*'`) it becomes `''`; from `threat_match` to ES|QL it becomes the
saved ES|QL query or the ES|QL default instead. -/
theorem c5_type_default_reset (prev cur : RuleType) (s : FormState) :
    (cur = RuleType.threatMatch → prev ≠ RuleType.threatMatch →
        s.queryBar = defaultCustomQuery.forNormalRules →
        (ruleTypeTransition (some prev) cur s).queryBar
          = defaultCustomQuery.forThreatMatchRules)
    ∧ (prev = RuleType.threatMatch → cur ≠ RuleType.threatMatch → cur ≠ RuleType.esql →
        s.queryBar = defaultCustomQuery.forThreatMatchRules →
        (ruleTypeTransition (some prev) cur s).queryBar
          = defaultCustomQuery.forNormalRules)
    ∧ (prev = RuleType.threatMatch → cur = RuleType.esql →
        (ruleTypeTransition (some prev) cur s).queryBar
          = s.esqlQueryRef.getD defaultCustomQuery.forEsqlRules) := by
  refine ⟨?_, ?_, ?_⟩
  · intro hc hp hq
    subst hc
    cases prev <;>
      simp_all [ruleTypeTransition, threatMatchQueryResetEffect, esqlQueryResetEffect,
        isThreatMatchRule, isEsqlRule, isThreatMatchRulePrev, isEsqlRulePrev,
        defaultCustomQuery]
  · intro hp hc he hq
    subst hp
    cases cur <;>
      simp_all [ruleTypeTransition, threatMatchQueryResetEffect, esqlQueryResetEffect,
        isThreatMatchRule, isEsqlRule, isThreatMatchRulePrev, isEsqlRulePrev,
        defaultCustomQuery]
  · intro hp hc
    subst hp
    subst hc
    by_cases hq : s.queryBar = defaultCustomQuery.forThreatMatchRules <;>
      simp_all [ruleTypeTransition, threatMatchQueryResetEffect, esqlQueryResetEffect,
        isThreatMatchRule, isEsqlRule, isThreatMatchRulePrev, isEsqlRulePrev]

/-- Witness for C5: concrete switches — `query → threat_match` with query
`''` yields `'*:*'`; `threat_match → query` with query `'*:*'` yields `''`;
`threat_match → esql` with an empty ref yields the ES|QL default. -/
theorem c5_type_default_reset_witness :
    (ruleTypeTransition (some RuleType.query) RuleType.threatMatch
        (FormState.mk (QueryBar.mk "" "kuery") none)).queryBar
      = defaultCustomQuery.forThreatMatchRules
    ∧ (ruleTypeTransition (some RuleType.threatMatch) RuleType.query
        (FormState.mk (QueryBar.mk "*:*" "kuery") none)).queryBar
      = defaultCustomQuery.forNormalRules
    ∧ (ruleTypeTransition (some RuleType.threatMatch) RuleType.esql
        (FormState.mk (QueryBar.mk "*:*" "kuery") none)).queryBar
      = (none : Option QueryBar).getD defaultCustomQuery.forEsqlRules :=
  ⟨(c5_type_default_reset RuleType.query RuleType.threatMatch
      (FormState.mk (QueryBar.mk "" "kuery") none)).1 rfl (by decide) (by decide),
   (c5_type_default_reset RuleType.threatMatch RuleType.query
      (FormState.mk (QueryBar.mk "*:*" "kuery") none)).2.1 rfl (by decide) (by decide) (by decide),
   (c5_type_default_reset RuleType.threatMatch RuleType.esql
      (FormState.mk (QueryBar.mk "*:*" "kuery") none)).2.2 rfl rfl⟩

/-- C8 counterexample: switching into `threat_match` from `esql` with a
user-written ES|QL query (which differs from the ES|QL type's default) does
reset the custom query to `'*:*'` — the user's value does not survive this
switch, it is only saved into the ref. -/
theorem c8_counterexample :
    QueryBar.mk "FROM logs-*" "esql" ≠ typeDefaultQuery RuleType.esql
    ∧ (ruleTypeTransition (some RuleType.esql) RuleType.threatMatch
        (FormState.mk (QueryBar.mk "FROM logs-*" "esql") none)).queryBar
      = defaultCustomQuery.forThreatMatchRules
    ∧ (ruleTypeTransition (some RuleType.esql) RuleType.threatMatch
        (FormState.mk (QueryBar.mk "FROM logs-*" "esql") none)).queryBar
      ≠ QueryBar.mk "FROM logs-*" "esql" := by
  refine ⟨by decide, rfl, by decide⟩

/-- C8 (amended): for a rule-type change into or out of `threat_match`
where neither the previous nor the new type is ES|QL, the custom query is
reset exactly when its value deep-equals the previous type's default; any
other value is left unchanged by the switch. -/
theorem c8_modified_query_preserved (prev cur : RuleType) (s : FormState)
    (hp : isEsqlRule prev = false) (hc : isEsqlRule cur = false)
    (hchange : isThreatMatchRule prev ≠ isThreatMatchRule cur) :
    (s.queryBar = typeDefaultQuery prev →
        (ruleTypeTransition (some prev) cur s).queryBar = typeDefaultQuery cur)
    ∧ (s.queryBar ≠ typeDefaultQuery prev →
        (ruleTypeTransition (some prev) cur s).queryBar = s.queryBar) := by
  cases prev <;> cases cur <;>
    constructor <;>
      intro hq <;>
        simp_all [ruleTypeTransition, threatMatchQueryResetEffect, esqlQueryResetEffect,
          isThreatMatchRule, isEsqlRule, isThreatMatchRulePrev, isEsqlRulePrev,
          typeDefaultQuery, defaultCustomQuery]

/-- Witness for C8: switching `query → threat_match` resets the default
`''` to `'*:*'` but preserves a user query. -/
theorem c8_modified_query_preserved_witness :
    ((FormState.mk (QueryBar.mk "" "kuery") none).queryBar
        = typeDefaultQuery RuleType.query →
      (ruleTypeTransition (some RuleType.query) RuleType.threatMatch
          (FormState.mk (QueryBar.mk "" "kuery") none)).queryBar
        = typeDefaultQuery RuleType.threatMatch)
    ∧ ((FormState.mk (QueryBar.mk "user query" "kuery") none).queryBar
        ≠ typeDefaultQuery RuleType.query →
      (ruleTypeTransition (some RuleType.query) RuleType.threatMatch
          (FormState.mk (QueryBar.mk "user query" "kuery") none)).queryBar
        = QueryBar.mk "user query" "kuery") :=
  ⟨(c8_modified_query_preserved RuleType.query RuleType.threatMatch
      (FormState.mk (QueryBar.mk "" "kuery") none) rfl rfl (by decide)).1,
   (c8_modified_query_preserved RuleType.query RuleType.threatMatch
      (FormState.mk (QueryBar.mk "user query" "kuery") none) rfl rfl (by decide)).2⟩

/-- C9: switching away from ES|QL saves an `esql`-language query into
`esqlQueryRef`; switching to ES|QL from a non-ES|QL type sets the query to
the saved ES|QL query or the ES|QL default; hence a round trip through a
non-ES|QL type restores the earlier ES|QL query. -/
theorem c9_esql_query_roundtrip (mid : RuleType) (s : FormState)
    (hm : isEsqlRule mid = false) :
    (s.queryBar.language = "esql" →
        (ruleTypeTransition (some RuleType.esql) mid s).esqlQueryRef = some s.queryBar)
    ∧ (∀ s2 : FormState,
        (ruleTypeTransition (some mid) RuleType.esql s2).queryBar
          = s2.esqlQueryRef.getD defaultCustomQuery.forEsqlRules)
    ∧ (s.queryBar.language = "esql" →
        (ruleTypeTransition (some mid) RuleType.esql
            (ruleTypeTransition (some RuleType.esql) mid s)).queryBar = s.queryBar) := by
  have hsave : s.queryBar.language = "esql" →
      (ruleTypeTransition (some RuleType.esql) mid s).esqlQueryRef = some s.queryBar := by
    intro hlang
    have hne : s.queryBar ≠ defaultCustomQuery.forNormalRules := by
      intro heq
      rw [heq] at hlang
      exact absurd hlang (by decide)
    cases mid <;>
      simp_all [ruleTypeTransition, threatMatchQueryResetEffect, esqlQueryResetEffect,
        isThreatMatchRule, isEsqlRule, isThreatMatchRulePrev, isEsqlRulePrev,
        defaultCustomQuery]
  have hrestore : ∀ s2 : FormState,
      (ruleTypeTransition (some mid) RuleType.esql s2).queryBar
        = s2.esqlQueryRef.getD defaultCustomQuery.forEsqlRules := by
    intro s2
    have href := threatMatchEffect_preserves_ref (some mid) RuleType.esql s2
    cases mid <;>
      simp_all [ruleTypeTransition, esqlQueryResetEffect,
        isThreatMatchRule, isEsqlRule, isThreatMatchRulePrev, isEsqlRulePrev]
  refine ⟨hsave, hrestore, ?_⟩
  intro hlang
  rw [hrestore (ruleTypeTransition (some RuleType.esql) mid s), hsave hlang]
  rfl

/-- Witness for C9: a concrete ES|QL query survives the round trip
`esql → query → esql`, the ref holds it in between, and switching back with
an empty ref yields the ES|QL default. -/
theorem c9_esql_query_roundtrip_witness :
    ((FormState.mk (QueryBar.mk "FROM a" "esql") none).queryBar.language = "esql" →
      (ruleTypeTransition (some RuleType.esql) RuleType.query
          (FormState.mk (QueryBar.mk "FROM a" "esql") none)).esqlQueryRef
        = some (QueryBar.mk "FROM a" "esql"))
    ∧ (ruleTypeTransition (some RuleType.query) RuleType.esql
        (FormState.mk (QueryBar.mk "" "kuery") none)).queryBar
      = (FormState.mk (QueryBar.mk "" "kuery") none).esqlQueryRef.getD
          defaultCustomQuery.forEsqlRules
    ∧ (ruleTypeTransition (some RuleType.query) RuleType.esql
        (ruleTypeTransition (some RuleType.esql) RuleType.query
          (FormState.mk (QueryBar.mk "FROM a" "esql") none))).queryBar
      = QueryBar.mk "FROM a" "esql" :=
  ⟨(c9_esql_query_roundtrip RuleType.query
      (FormState.mk (QueryBar.mk "FROM a" "esql") none) rfl).1,
   (c9_esql_query_roundtrip RuleType.query
      (FormState.mk (QueryBar.mk "FROM a" "esql") none) rfl).2.1
      (FormState.mk (QueryBar.mk "" "kuery") none),
   (c9_esql_query_roundtrip RuleType.query
      (FormState.mk (QueryBar.mk "FROM a" "esql") none) rfl).2.2 rfl⟩

/-! ### Theorems about the spec-modelled dashboard behaviors -/

/-- C6: loading a dashboard whose referenced data view is not among the
available ones surfaces an embeddable error, and the error's visible text
contains `Could not locate that data view`. -/
theorem c6_missing_data_view_error (ids : List String) (dvId : String)
    (h : ids.contains dvId = false) :
    (loadDashboard ids dvId).isSome = true
    ∧ ∀ msg, loadDashboard ids dvId = some msg →
        List.IsInfix "Could not locate that data view".toList msg.toList := by
  unfold loadDashboard
  rw [h]
  refine ⟨by simp, ?_⟩
  intro msg hm
  simp only [Bool.false_eq_true, if_false, Option.some.injEq] at hm
  subst hm
  refine ⟨[], (" (id: " ++ dvId ++ "), click here to re-create it").toList, ?_⟩
  simp

/-- Witness for C6: with no data views available, loading a dashboard that
references data view `missing-dv` surfaces the error text. -/
theorem c6_missing_data_view_error_witness :
    (loadDashboard [] "missing-dv").isSome = true
    ∧ ∀ msg, loadDashboard [] "missing-dv" = some msg →
        List.IsInfix "Could not locate that data view".toList msg.toList :=
  c6_missing_data_view_error [] "missing-dv" rfl

/-- C7: creating the interval control at the cursor inside
`BUCKET(@timestamp,  )` rewrites the editor query so that it contains
`FROM logstash* | STATS COUNT(*) BY BUCKET(@timestamp,  ?interval)`. -/
theorem c7_interval_control_rewrite :
    List.IsInfix
      "FROM logstash* | STATS COUNT(*) BY BUCKET(@timestamp,  ?interval)".toList
      (applyIntervalControl "FROM logstash* | STATS COUNT(*) BY BUCKET(@timestamp,  "
        ")").toList := by
  have h : applyIntervalControl "FROM logstash* | STATS COUNT(*) BY BUCKET(@timestamp,  " ")"
      = "FROM logstash* | STATS COUNT(*) BY BUCKET(@timestamp,  ?interval)" := rfl
  rw [h]

end Spec2Proof
